import Mathlib

/-!
Shallow embedding of the crypto_grid_scalper trading bot core
(src/grid.py, src/risk.py, src/position_reopen_manager.py,
src/market_position_manager.py, src/bot.py).

Modelling conventions:
- Python Decimal / float price arithmetic is embedded as exact rationals.
- Config values read from the environment keep their source types: the
  two limit settings (maxConsecutiveGridPositions, maxMarketPositionReopens)
  are strings parsed with int(...), embedded by pyInt?; string lowering
  is embedded by pyLower (ASCII str.lower).
- Exchange-gateway and analyzer responses are passed in explicitly as
  oracle records; every gateway call that can succeed or fail consumes a
  Bool or an Option from the oracle, in call order.
- Python truthiness of optional numbers (None or 0.0 is falsy) is
  embedded by qTruthy.
- The while loop of Grid.generate is embedded with explicit fuel large
  enough to cover every terminating run of the source loop.
-/

/-- ASCII embedding of the Python str.lower method. -/
def pyLower (s : String) : String := ⟨s.data.map Char.toLower⟩

/-- Parses the digit part of a Python integer literal: digits with single
underscores allowed only between digits (CPython int() grammar). -/
def pyDigitsAux : ℕ → List Char → Option ℕ
  | acc, [] => some acc
  | acc, c :: cs =>
    if c.isDigit then pyDigitsAux (10 * acc + (c.toNat - 48)) cs
    else if c = '_' then
      match cs with
      | [] => none
      | d :: cs2 => if d.isDigit then pyDigitsAux (10 * acc + (d.toNat - 48)) cs2 else none
    else none

/-- Nonempty digit sequence that must start with a digit. -/
def pyDigits : List Char → Option ℕ
  | [] => none
  | c :: cs => if c.isDigit then pyDigitsAux (c.toNat - 48) cs else none

/-- Embedding of a Python int(s) call on a string: optional surrounding
whitespace, optional sign, then digits; returns none where CPython raises
ValueError. -/
def pyInt? (s : String) : Option ℤ :=
  let l := ((s.data.dropWhile Char.isWhitespace).reverse.dropWhile Char.isWhitespace).reverse
  match l with
  | '+' :: rest => (pyDigits rest).map (fun n => (n : ℤ))
  | '-' :: rest => (pyDigits rest).map (fun n => -(n : ℤ))
  | rest => (pyDigits rest).map (fun n => (n : ℤ))

/-- Python truthiness of an optional number: None and 0.0 are falsy. -/
def qTruthy : Option ℚ → Bool
  | none => false
  | some v => v ≠ 0

/-- Directional mode of the grid config (config mode key, validated at load
time to be one of long, short, neutral). -/
inductive Mode where
  | long
  | short
  | neutral
deriving DecidableEq, Repr

/-- Take-profit mode (config tpMode key, PERCENTAGE or GRID_RANGE). -/
inductive TpMode where
  | PERCENTAGE
  | GRID_RANGE
deriving DecidableEq, Repr

/-- Position sizing mode (config positionSizeType key). -/
inductive SizeType where
  | BASE
  | QUOTE
deriving DecidableEq, Repr

/-- The configuration dict produced by src/config.py, restricted to the keys
the core components read. Limit settings stay strings as in the source. -/
structure Config where
  mode : Mode
  startPrice : ℚ
  endPrice : ℚ
  gridSize : ℚ
  positionSizeType : SizeType
  positionSize : ℚ
  enableRangeExitRule : Bool
  rangeExitThresholdPercent : ℚ
  tpMode : TpMode
  takeProfitPercent : Option ℚ
  stopLossPercent : Option ℚ
  dualSidePosition : Bool
  enableMarketPositionLogic : Bool
  analysisIntervalMinutes : ℚ
  enablePositionReopen : Bool
  maxConsecutiveGridPositions : String
  gridBotNeutralOnly : Bool
  maxMarketPositionReopens : String
  neutralMomentumAction : String
deriving Repr

/-! ## Grid (src/grid.py) -/

/-- Mutable state of the Grid class: grid_levels, grid_width,
grid_center_price. -/
structure GridState where
  grid_levels : List ℚ
  grid_width : ℚ
  grid_center_price : ℚ
deriving Repr, DecidableEq

/-- Initial Grid state set in Grid constructor. -/
def GridState.init : GridState := ⟨[], 0, 0⟩

/-- The while loop of Grid.generate: append current level and advance by the
interval while the level does not exceed the upper bound. Fuel bounds the
iteration count; generate passes fuel that covers every terminating run. -/
def levelsLoop (e interval : ℚ) : ℚ → ℕ → List ℚ
  | _, 0 => []
  | cur, n + 1 => if cur ≤ e then cur :: levelsLoop e interval (cur + interval) n else []

namespace Grid

/-- Embedding of Grid.generate: recomputes width and interval from the config,
replaces the level list with the ladder from center − width/2 stepping by
interval while at most center + width/2. -/
def generate (cfg : Config) (center_price : ℚ) : GridState :=
  let width := cfg.endPrice - cfg.startPrice
  let interval := width / cfg.gridSize
  let new_start_price := center_price - width / 2
  let new_end_price := center_price + width / 2
  let fuel := (⌊width / interval⌋).toNat + 2
  { grid_levels := levelsLoop new_end_price interval new_start_price fuel
    grid_width := width
    grid_center_price := center_price }

end Grid

/-! ## RiskManager (src/risk.py) -/

namespace RiskManager

/-- Embedding of RiskManager._check_max_consecutive_positions: unlimited
disables the rule; an unparsable limit logs and disables the rule; otherwise
the rule trips when the counter has reached the limit. -/
def check_max_consecutive_positions (cfg : Config) (position_counter : ℕ) : Bool :=
  let max_positions_str := cfg.maxConsecutiveGridPositions
  if pyLower max_positions_str = "unlimited" then false
  else
    match pyInt? max_positions_str with
    | none => false
    | some max_positions => decide ((position_counter : ℤ) ≥ max_positions)

/-- Embedding of RiskManager._check_stop_loss. The caller guards this with a
truthy stopLossPercent, so the none branch is unreachable and reads 0. -/
def check_stop_loss (cfg : Config) (current_price entry_price : ℚ) : Bool :=
  let sl_percent := (cfg.stopLossPercent.getD 0) / 100
  match cfg.mode with
  | Mode.long => decide (current_price ≤ entry_price * (1 - sl_percent))
  | Mode.short => decide (current_price ≥ entry_price * (1 + sl_percent))
  | Mode.neutral => false

/-- Embedding of RiskManager._check_take_profit. The caller guards this with a
truthy takeProfitPercent, so the none branch is unreachable and reads 0. -/
def check_take_profit (cfg : Config) (current_price entry_price : ℚ) : Bool :=
  let tp_percent := (cfg.takeProfitPercent.getD 0) / 100
  match cfg.mode with
  | Mode.long => decide (current_price ≥ entry_price * (1 + tp_percent))
  | Mode.short => decide (current_price ≤ entry_price * (1 - tp_percent))
  | Mode.neutral => false

/-- Embedding of RiskManager._check_range_exit_rule. -/
def check_range_exit_rule (cfg : Config) (grid : GridState) (current_price : ℚ) : Bool :=
  let lower := grid.grid_center_price - grid.grid_width / 2
  let upper := grid.grid_center_price + grid.grid_width / 2
  let threshold := cfg.rangeExitThresholdPercent / 100
  let amount := grid.grid_width * threshold
  decide (current_price ≥ upper + amount ∨ current_price ≤ lower - amount)

/-- Embedding of RiskManager.check_exit_conditions: max consecutive positions,
then stop loss, then take profit, then the range exit rule, short-circuiting
on the first reason. The open_positions argument of the source is unused
there and is omitted. -/
def check_exit_conditions (cfg : Config) (grid : GridState) (current_price : ℚ)
    (position_counter : ℕ) (entry_price : Option ℚ) : Option String :=
  if check_max_consecutive_positions cfg position_counter then
    some "Max Consecutive Positions Triggered"
  else if qTruthy cfg.stopLossPercent && qTruthy entry_price &&
      check_stop_loss cfg current_price (entry_price.getD 0) then
    some "Stop Loss Triggered"
  else if qTruthy cfg.takeProfitPercent && qTruthy entry_price &&
      check_take_profit cfg current_price (entry_price.getD 0) then
    some "Take Profit Triggered"
  else if cfg.enableRangeExitRule && check_range_exit_rule cfg grid current_price then
    some "Range Exit Rule Triggered"
  else
    none

end RiskManager

/-! ## PositionReopenManager (src/position_reopen_manager.py) -/

/-- Entry of the reopen queue (the dict built by add_position_to_reopen). -/
structure ReopenEntry where
  grid_level : ℚ
  side : String
  quantity : ℚ
  position_idx : String
deriving Repr, DecidableEq

namespace PositionReopenManager

/-- Embedding of PositionReopenManager.add_position_to_reopen: appends
unconditionally. -/
def add_position_to_reopen (queue : List ReopenEntry) (e : ReopenEntry) : List ReopenEntry :=
  queue ++ [e]

/-- Loop body of process_reopen_queue: one create_order call per entry of the
queue snapshot, consuming one gateway response per call; a successful entry is
removed, a failed one is retained. Returns the entries attempted, in call
order, together with the new queue. A missing response counts as failure. -/
def drainAux : List ReopenEntry → List Bool → (List ReopenEntry × List ReopenEntry)
  | [], _ => ([], [])
  | e :: es, rs =>
    let r := rs.headD false
    let rest := drainAux es rs.tail
    (e :: rest.1, if r then rest.2 else e :: rest.2)

/-- Embedding of PositionReopenManager.process_reopen_queue: no-op when
position reopening is disabled, otherwise attempts every queued entry in
order against the gateway responses. First component: entries attempted;
second component: the queue afterwards. -/
def process_reopen_queue (cfg : Config) (queue : List ReopenEntry)
    (responses : List Bool) : List ReopenEntry × List ReopenEntry :=
  if cfg.enablePositionReopen then drainAux queue responses else ([], queue)

/-- Embedding of PositionReopenManager.clear_reopen_queue. -/
def clear_reopen_queue : List ReopenEntry := []

end PositionReopenManager

/-! ## MarketPositionManager (src/market_position_manager.py) -/

/-- Result of a successful Volatility Detector analysis, restricted to the
fields the manager reads (dict .get of trend and momentum; absent or null
keys are none). -/
structure Analysis where
  trend : Option String
  momentum : Option String
deriving Repr, DecidableEq

/-- TP/SL target dict of the market position
(_calculate_market_position_targets); a missing tp_price or sl_price key is
none. The empty Python dict is modelled as none at the use sites. -/
structure MpTargets where
  entry_price : ℚ
  side : String
  tp_price : Option ℚ
  sl_price : Option ℚ
deriving Repr, DecidableEq

/-- Position information returned by the gateway
(getPositionInformation): positionAmt and entryPrice. -/
structure PosInfo where
  positionAmt : ℚ
  entryPrice : ℚ
deriving Repr, DecidableEq

/-- Mutable state of the MarketPositionManager class. Times are rationals in
minutes; last_analysis_time is set from the oracle clock on a successful
analysis. -/
structure MPState where
  last_analysis_time : Option ℚ
  last_analysis_result : Option Analysis
  market_position : Option String
  market_position_entry_price : Option ℚ
  market_position_targets : Option MpTargets
  market_position_reopens : ℕ
  last_signal : Option String
deriving Repr, DecidableEq

/-- Initial MarketPositionManager state set in the constructor. -/
def MPState.init : MPState := ⟨none, none, none, none, none, 0, none⟩

/-- Action returned by determine_action. -/
inductive MpAction where
  | OPEN_LONG
  | OPEN_SHORT
  | CLOSE
deriving DecidableEq, Repr

/-- Formatting of the signal f-string: trend and momentum joined by an
underscore, null rendered as None. -/
def mkSignal (trend momentum : Option String) : String :=
  (trend.getD "None") ++ "_" ++ (momentum.getD "None")

namespace MarketPositionManager

/-- Embedding of MarketPositionManager.should_run_analysis. -/
def should_run_analysis (cfg : Config) (s : MPState) (now : ℚ) : Bool :=
  match s.last_analysis_time with
  | none => true
  | some t => decide (now - t ≥ cfg.analysisIntervalMinutes)

/-- Embedding of MarketPositionManager.determine_action: resets the reopen
counter when the formatted signal changed, records the signal, debounces an
analysis identical in trend and momentum to the previous one, then
classifies the pair into an action. -/
def determine_action (cfg : Config) (s : MPState) (r : Analysis) :
    MPState × Option MpAction :=
  let current_signal := mkSignal r.trend r.momentum
  let reopens :=
    match s.last_signal with
    | some ls => if ls ≠ current_signal then 0 else s.market_position_reopens
    | none => s.market_position_reopens
  let s1 := { s with market_position_reopens := reopens, last_signal := some current_signal }
  let debounced :=
    match s.last_analysis_result with
    | some prev => decide (prev.trend = r.trend ∧ prev.momentum = r.momentum)
    | none => false
  if debounced then (s1, none)
  else
    let s2 := { s1 with last_analysis_result := some r }
    if r.trend = some "UPTREND" ∧ r.momentum = some "OVERBOUGHT" then
      (s2, some MpAction.OPEN_LONG)
    else if r.trend = some "DOWNTREND" ∧ r.momentum = some "OVERSOLD" then
      (s2, some MpAction.OPEN_SHORT)
    else if r.momentum = some "NEUTRAL" then
      if pyLower cfg.neutralMomentumAction = "stop" then (s2, some MpAction.CLOSE)
      else (s2, none)
    else (s2, none)

/-- Embedding of MarketPositionManager._calculate_market_position_targets. -/
def calculate_market_position_targets (cfg : Config) (entry_price : ℚ)
    (side : String) : MpTargets :=
  { entry_price := entry_price
    side := side
    sl_price :=
      if qTruthy cfg.stopLossPercent then
        let sl_percent := (cfg.stopLossPercent.getD 0) / 100
        if side = "BUY" then some (entry_price * (1 - sl_percent))
        else some (entry_price * (1 + sl_percent))
      else none
    tp_price :=
      if qTruthy cfg.takeProfitPercent then
        let tp_percent := (cfg.takeProfitPercent.getD 0) / 100
        if side = "BUY" then some (entry_price * (1 + tp_percent))
        else some (entry_price * (1 - tp_percent))
      else none }

/-- Embedding of MarketPositionManager.open_market_position: a QUOTE sizing at
price zero raises ZeroDivisionError, caught as a failed open; otherwise the
call succeeds exactly when the gateway order succeeds, recording side, entry
price and targets. -/
def open_market_position (cfg : Config) (s : MPState) (side : String)
    (current_price : ℚ) (orderOk : Bool) : MPState × Bool :=
  if cfg.positionSizeType = SizeType.QUOTE ∧ current_price = 0 then (s, false)
  else if orderOk then
    ({ s with
        market_position := some side
        market_position_entry_price := some current_price
        market_position_targets :=
          some (calculate_market_position_targets cfg current_price side) }, true)
  else (s, false)

/-- Embedding of MarketPositionManager.close_market_position (the
reopen_on_tp_sl parameter is never set by any caller and is omitted): no
tracked position is a trivial success; a gateway report of no open position
clears the tracked side and targets; otherwise a market close is attempted
and clears the whole tracked position on success. -/
def close_market_position (s : MPState) (posInfo : Option PosInfo)
    (closeOk : Bool) : MPState × Bool :=
  match s.market_position with
  | none => (s, true)
  | some _ =>
    match posInfo with
    | none =>
      ({ s with market_position := none, market_position_targets := none }, true)
    | some pi =>
      if pi.positionAmt = 0 then
        ({ s with market_position := none, market_position_targets := none }, true)
      else if closeOk then
        ({ s with
            market_position := none
            market_position_entry_price := none
            market_position_targets := none }, true)
      else (s, false)

/-- Embedding of MarketPositionManager.check_market_position_tp_sl: take
profit first, then stop loss, against the recorded targets. -/
def check_market_position_tp_sl (s : MPState) (current_price : ℚ) : Option String :=
  match s.market_position, s.market_position_targets with
  | some _, some t =>
    let tpHit :=
      match t.tp_price with
      | some tp => decide ((t.side = "BUY" ∧ current_price ≥ tp) ∨
          (t.side = "SELL" ∧ current_price ≤ tp))
      | none => false
    let slHit :=
      match t.sl_price with
      | some sl => decide ((t.side = "BUY" ∧ current_price ≤ sl) ∨
          (t.side = "SELL" ∧ current_price ≥ sl))
      | none => false
    if tpHit then some "TAKE_PROFIT"
    else if slHit then some "STOP_LOSS"
    else none
  | _, _ => none

/-- Embedding of MarketPositionManager._can_reopen_market_position: unlimited
allows reopening; an unparsable limit logs and allows reopening; otherwise
reopening is allowed while the counter is below the limit. -/
def can_reopen_market_position (cfg : Config) (s : MPState) : Bool :=
  let max_reopens_str := cfg.maxMarketPositionReopens
  if pyLower max_reopens_str = "unlimited" then true
  else
    match pyInt? max_reopens_str with
    | none => true
    | some max_reopens => !decide ((s.market_position_reopens : ℤ) ≥ max_reopens)

end MarketPositionManager

/-- Gateway responses consumed by handle_market_position_tp_sl: the position
query made by the handler itself, then the query and close order made inside
close_market_position, then the reopen market order. -/
structure HandleOracle where
  posInfo : Option PosInfo
  closePosInfo : Option PosInfo
  closeOk : Bool
  openOk : Bool
deriving Repr

/-- External responses consumed by process_analysis: the clock, the analyzer
result after retries (none when every attempt failed), and the gateway
responses of the close and open calls an action may issue. -/
structure AnalysisOracle where
  now : ℚ
  analysisResult : Option Analysis
  closePosInfo : Option PosInfo
  closeOk : Bool
  openOk : Bool
deriving Repr

namespace MarketPositionManager

/-- Embedding of MarketPositionManager.handle_market_position_tp_sl: with no
tracked position, nothing happens; with the reopen budget exhausted, or the
last recorded momentum NEUTRAL, the position is closed and not reopened;
otherwise, if the gateway reports an open position, it is closed, the reopen
counter is incremented, and the same side is reopened at the current price. -/
def handle_market_position_tp_sl (cfg : Config) (s : MPState)
    (_tp_sl_trigger : String) (current_price : ℚ) (o : HandleOracle) : MPState × Bool :=
  match s.market_position with
  | none => (s, false)
  | some _ =>
    if !can_reopen_market_position cfg s then
      ((close_market_position s o.closePosInfo o.closeOk).1, false)
    else if (match s.last_analysis_result with
        | some r => r.momentum = some "NEUTRAL"
        | none => false : Bool) then
      ((close_market_position s o.closePosInfo o.closeOk).1, false)
    else
      match o.posInfo with
      | none => (s, false)
      | some pi =>
        if pi.positionAmt = 0 then (s, false)
        else
          let reopen_side := if pi.positionAmt > 0 then "BUY" else "SELL"
          let s1 := (close_market_position s o.closePosInfo o.closeOk).1
          let s2 := { s1 with market_position_reopens := s1.market_position_reopens + 1 }
          let s3 := (open_market_position cfg s2 reopen_side current_price o.openOk).1
          (s3, true)

/-- Embedding of MarketPositionManager.process_analysis: skipped when the
market-position logic is disabled or the analysis interval has not elapsed;
a failed analysis ends the call; otherwise the analysis time is recorded,
the action is determined, and OPEN_LONG, OPEN_SHORT or CLOSE is executed,
each resetting the reopen counter. -/
def process_analysis (cfg : Config) (s : MPState) (current_price : ℚ)
    (o : AnalysisOracle) : MPState × Bool :=
  if !cfg.enableMarketPositionLogic then (s, false)
  else if !should_run_analysis cfg s o.now then (s, false)
  else
    match o.analysisResult with
    | none => (s, false)
    | some r =>
      let s0 := { s with last_analysis_time := some o.now }
      let (s1, action) := determine_action cfg s0 r
      match action with
      | none => (s1, true)
      | some MpAction.OPEN_LONG =>
        let s2 := (close_market_position s1 o.closePosInfo o.closeOk).1
        let s3 := { s2 with market_position_reopens := 0 }
        ((open_market_position cfg s3 "BUY" current_price o.openOk).1, true)
      | some MpAction.OPEN_SHORT =>
        let s2 := (close_market_position s1 o.closePosInfo o.closeOk).1
        let s3 := { s2 with market_position_reopens := 0 }
        ((open_market_position cfg s3 "SELL" current_price o.openOk).1, true)
      | some MpAction.CLOSE =>
        let s2 := (close_market_position s1 o.closePosInfo o.closeOk).1
        ({ s2 with market_position_reopens := 0 }, true)

end MarketPositionManager

/-! ## Bot (src/bot.py) -/

/-- TP/SL target dict of the grid position (Bot.calculate_tp_sl_targets);
missing tp_price or sl_price keys are none, the empty dict is none at the
use sites. -/
structure BotTargets where
  entry_price : ℚ
  position_side : String
  tp_price : Option ℚ
  sl_price : Option ℚ
deriving Repr, DecidableEq

/-- Orchestrator state owned by the Bot instance: the grid, the grid-active
flag, the simplified open-position list (zero or one entries), the position
counter, the per-position targets, the last-seen amount, entry price and
side, the reopen queue, and the market-position manager state. -/
structure BotState where
  grid : GridState
  is_grid_active : Bool
  open_positions : Option PosInfo
  position_counter : ℕ
  position_targets : Option BotTargets
  last_position_amt : ℚ
  last_entry_price : Option ℚ
  last_position_side : Option String
  reopen_queue : List ReopenEntry
  mpm : MPState
deriving Repr, DecidableEq

/-- Initial Bot state set in the constructor. -/
def BotState.init : BotState :=
  ⟨GridState.init, false, none, 0, none, 0, none, none, [], MPState.init⟩

/-- External responses consumed by one tick of Bot.run: the manual-shutdown
marker, the market price, the gateway responses of the market-position TP/SL
handler, the reopen-queue drain, the grid position query, and the analysis
step. -/
structure TickOracle where
  shutdown : Bool
  price : Option ℚ
  handle : HandleOracle
  reopenResponses : List Bool
  posInfo : Option PosInfo
  mpo : AnalysisOracle
deriving Repr

namespace Bot

/-- Embedding of Bot._find_next_grid_level: sorts the levels ascending and
returns the first level above the entry for long mode, the first level below
for short mode. -/
def find_next_grid_level (cfg : Config) (grid : GridState) (entry_price : ℚ) : Option ℚ :=
  if grid.grid_levels = [] then none
  else
    let ls := grid.grid_levels.mergeSort (fun a b => decide (a ≤ b))
    match cfg.mode with
    | Mode.long => ls.find? (fun l => decide (l > entry_price))
    | Mode.short => ls.reverse.find? (fun l => decide (l < entry_price))
    | Mode.neutral => none

/-- Embedding of Bot.calculate_tp_sl_targets: percentage stop loss by grid
mode, take profit by percentage or by the next grid level per tpMode. -/
def calculate_tp_sl_targets (cfg : Config) (grid : GridState) (entry_price : ℚ)
    (position_side : String) : BotTargets :=
  { entry_price := entry_price
    position_side := position_side
    sl_price :=
      if qTruthy cfg.stopLossPercent then
        let sl_percent := (cfg.stopLossPercent.getD 0) / 100
        match cfg.mode with
        | Mode.long => some (entry_price * (1 - sl_percent))
        | Mode.short => some (entry_price * (1 + sl_percent))
        | Mode.neutral => none
      else none
    tp_price :=
      match cfg.tpMode with
      | TpMode.PERCENTAGE =>
        if qTruthy cfg.takeProfitPercent then
          let tp_percent := (cfg.takeProfitPercent.getD 0) / 100
          match cfg.mode with
          | Mode.long => some (entry_price * (1 + tp_percent))
          | Mode.short => some (entry_price * (1 - tp_percent))
          | Mode.neutral => none
        else none
      | TpMode.GRID_RANGE => find_next_grid_level cfg grid entry_price }

/-- Embedding of Bot.check_tp_sl_targets: take profit first, then stop loss,
with directions taken from the configured grid mode. -/
def check_tp_sl_targets (cfg : Config) (targets : Option BotTargets)
    (current_price : ℚ) : Option String :=
  match targets with
  | none => none
  | some t =>
    let tpHit :=
      match t.tp_price with
      | some tp => decide ((cfg.mode = Mode.long ∧ current_price ≥ tp) ∨
          (cfg.mode = Mode.short ∧ current_price ≤ tp))
      | none => false
    let slHit :=
      match t.sl_price with
      | some sl => decide ((cfg.mode = Mode.long ∧ current_price ≤ sl) ∨
          (cfg.mode = Mode.short ∧ current_price ≥ sl))
      | none => false
    if tpHit then some "TAKE_PROFIT"
    else if slHit then some "STOP_LOSS"
    else none

/-- One tick of Bot.run after a price was obtained: market-position TP/SL
handling, reopen-queue drain, the grid-active block (position transition
tracking, reopen enqueue on closure, grid TP/SL, exit conditions and grid
reset), grid (re)generation under the neutral-only gate, neutral-only
deactivation, and the market-position analysis step. Order-placement and
cancel calls mutate no orchestrator state and consume no modelled oracle. -/
def tick (cfg : Config) (o : TickOracle) (p : ℚ) (s : BotState) : BotState :=
  let mpm1 :=
    match s.mpm.market_position with
    | some _ =>
      match MarketPositionManager.check_market_position_tp_sl s.mpm p with
      | some trig => (MarketPositionManager.handle_market_position_tp_sl cfg s.mpm trig p o.handle).1
      | none => s.mpm
    | none => s.mpm
  let queue1 := (PositionReopenManager.process_reopen_queue cfg s.reopen_queue o.reopenResponses).2
  let s1 : BotState := { s with mpm := mpm1, reopen_queue := queue1 }
  let s2 : BotState :=
    if s1.is_grid_active then
      let openPos : Option PosInfo :=
        match o.posInfo with
        | some pi => if pi.positionAmt = 0 then none else some pi
        | none => none
      let s2a : BotState :=
        match openPos with
        | some pi =>
          if s1.last_position_amt = 0 then
            let pside := if pi.positionAmt > 0 then "LONG"
              else if cfg.dualSidePosition then "SHORT" else "BOTH"
            { s1 with
                open_positions := some pi
                position_counter := s1.position_counter + 1
                position_targets :=
                  some (calculate_tp_sl_targets cfg s1.grid pi.entryPrice pside)
                last_entry_price := some pi.entryPrice
                last_position_side := some pside
                last_position_amt := pi.positionAmt }
          else { s1 with open_positions := some pi, last_position_amt := pi.positionAmt }
        | none =>
          let queue2 :=
            if s1.last_position_amt ≠ 0 ∧ cfg.enablePositionReopen = true then
              let rside := if s1.last_position_amt > 0 then "SELL" else "BUY"
              let pidx := if s1.last_position_amt > 0 then "1" else "0"
              PositionReopenManager.add_position_to_reopen s1.reopen_queue
                ⟨s1.last_entry_price.getD 0, rside, |s1.last_position_amt|, pidx⟩
            else s1.reopen_queue
          { s1 with
              open_positions := none
              reopen_queue := queue2
              last_position_amt := 0
              last_entry_price := none
              last_position_side := none
              position_targets := none }
      let entry_price : Option ℚ := s2a.open_positions.map (fun pi => pi.entryPrice)
      let s2b : BotState :=
        match check_tp_sl_targets cfg s2a.position_targets p with
        | some _ => { s2a with position_targets := none }
        | none => s2a
      match RiskManager.check_exit_conditions cfg s2b.grid p s2b.position_counter entry_price with
      | some _ =>
        { s2b with
            reopen_queue := PositionReopenManager.clear_reopen_queue
            position_counter := 0
            last_position_amt := 0
            last_entry_price := none
            last_position_side := none
            is_grid_active := false
            position_targets := none }
      | none => s2b
    else s1
  let s3 : BotState :=
    if !s2.is_grid_active then
      let should_activate :=
        if cfg.gridBotNeutralOnly then
          match s2.mpm.last_analysis_result with
          | some r => decide (r.momentum = some "NEUTRAL")
          | none => true
        else true
      if should_activate then
        { s2 with grid := Grid.generate cfg p, is_grid_active := true }
      else s2
    else s2
  let s4 : BotState :=
    if s3.is_grid_active ∧ cfg.gridBotNeutralOnly = true then
      match s3.mpm.last_analysis_result with
      | some r =>
        if r.momentum ≠ some "NEUTRAL" then
          { s3 with
              reopen_queue := PositionReopenManager.clear_reopen_queue
              position_counter := 0
              last_position_amt := 0
              last_entry_price := none
              last_position_side := none
              is_grid_active := false
              position_targets := none }
        else s3
      | none => s3
    else s3
  { s4 with mpm := (MarketPositionManager.process_analysis cfg s4.mpm p o.mpo).1 }

/-- Embedding of Bot.run: the manual-shutdown marker cancels orders, closes
positions and terminates the process (none); a missing market price skips
the tick and returns the state unchanged; otherwise one full tick runs. -/
def run (cfg : Config) (o : TickOracle) (s : BotState) : Option BotState :=
  if o.shutdown then none
  else
    match o.price with
    | none => some s
    | some p => some (tick cfg o p s)

end Bot

/-! ## Concrete fixtures used by witnesses and counterexamples -/

/-- Scenario configuration of the grid claim: price range 900 to 1100 with 4
divisions. -/
def c1Cfg : Config :=
  { mode := Mode.long, startPrice := 900, endPrice := 1100, gridSize := 4,
    positionSizeType := SizeType.BASE, positionSize := 1,
    enableRangeExitRule := true, rangeExitThresholdPercent := 100,
    tpMode := TpMode.PERCENTAGE, takeProfitPercent := none,
    stopLossPercent := none, dualSidePosition := false,
    enableMarketPositionLogic := true, analysisIntervalMinutes := 10,
    enablePositionReopen := true, maxConsecutiveGridPositions := "3",
    gridBotNeutralOnly := false, maxMarketPositionReopens := "unlimited",
    neutralMomentumAction := "stop" }

/-- Scenario configuration of the risk claims: long mode, stop loss 5 percent,
take profit 10 percent, three consecutive positions, unlimited reopens. -/
def c4Cfg : Config :=
  { mode := Mode.long, startPrice := 900, endPrice := 1100, gridSize := 4,
    positionSizeType := SizeType.BASE, positionSize := 1,
    enableRangeExitRule := true, rangeExitThresholdPercent := 100,
    tpMode := TpMode.PERCENTAGE, takeProfitPercent := some 10,
    stopLossPercent := some 5, dualSidePosition := false,
    enableMarketPositionLogic := true, analysisIntervalMinutes := 10,
    enablePositionReopen := true, maxConsecutiveGridPositions := "3",
    gridBotNeutralOnly := false, maxMarketPositionReopens := "unlimited",
    neutralMomentumAction := "stop" }

/-- Configuration with grid-range take-profit mode but a take-profit percent
still set, no stop loss and no range exit rule. -/
def c2Cfg : Config :=
  { mode := Mode.long, startPrice := 900, endPrice := 1100, gridSize := 4,
    positionSizeType := SizeType.BASE, positionSize := 1,
    enableRangeExitRule := false, rangeExitThresholdPercent := 100,
    tpMode := TpMode.GRID_RANGE, takeProfitPercent := some 10,
    stopLossPercent := none, dualSidePosition := false,
    enableMarketPositionLogic := true, analysisIntervalMinutes := 10,
    enablePositionReopen := true, maxConsecutiveGridPositions := "unlimited",
    gridBotNeutralOnly := false, maxMarketPositionReopens := "unlimited",
    neutralMomentumAction := "stop" }

/-- Reopen-queue entry of the drain scenario: level 1000, SELL, quantity 1,
SHORT slot. -/
def c5Entry : ReopenEntry := ⟨1000, "SELL", 1, "1"⟩

/-- Analysis result with an uptrend and overbought momentum. -/
def anUp : Analysis := ⟨some "UPTREND", some "OVERBOUGHT"⟩

/-- Configuration whose market-position reopen budget is zero. -/
def c7CfgZero : Config := { c4Cfg with maxMarketPositionReopens := "0" }

/-- Configuration whose market-position reopen budget is two. -/
def c9Cfg : Config := { c4Cfg with maxMarketPositionReopens := "2" }

/-- Configuration whose two limit settings are unparsable strings. -/
def c10Cfg : Config :=
  { c4Cfg with maxConsecutiveGridPositions := "abc", maxMarketPositionReopens := "abc" }

/-- Manager state holding an open long market position with no reopens yet. -/
def mpOpen : MPState :=
  { last_analysis_time := none, last_analysis_result := some anUp,
    market_position := some "BUY", market_position_entry_price := some 1000,
    market_position_targets := none, market_position_reopens := 0, last_signal := none }

/-- Manager state with one reopen consumed. -/
def mpOne : MPState := { MPState.init with market_position_reopens := 1 }

/-- Handler oracle: gateway reports an open long position of amount 1 at entry
1000 and every order call succeeds. -/
def hOracle : HandleOracle := ⟨some ⟨1, 1000⟩, some ⟨1, 1000⟩, true, true⟩

/-- Tick oracle with no shutdown marker and no market price available. -/
def tickO : TickOracle :=
  ⟨false, none, ⟨none, none, true, true⟩, [], none, ⟨0, none, none, true, true⟩⟩

/-! ## Helper lemmas -/

/-- Helper: the generate loop stops immediately once the level exceeds the
bound. -/
theorem levelsLoop_nil (e interval cur : ℚ) (h : ¬ cur ≤ e) :
    ∀ n, levelsLoop e interval cur n = [] := by
  intro n
  cases n with
  | zero => rfl
  | succ m => simp [levelsLoop, h]

/-- Helper: closed form of the generate loop for a positive interval and
enough fuel. -/
theorem levelsLoop_closed (I : ℚ) (hI : 0 < I) :
    ∀ (n : ℕ) (start e : ℚ), start ≤ e → (⌊(e - start) / I⌋).toNat + 2 ≤ n →
      levelsLoop e I start n =
        (List.range ((⌊(e - start) / I⌋).toNat + 1)).map (fun k : ℕ => start + (k : ℚ) * I) := by
  intro n
  induction n with
  | zero => intro start e _ hfuel; omega
  | succ m ih =>
    intro start e hse hfuel
    have hIne : I ≠ 0 := ne_of_gt hI
    have h0 : 0 ≤ (e - start) / I := div_nonneg (by linarith) hI.le
    have hfl0 : 0 ≤ ⌊(e - start) / I⌋ := Int.floor_nonneg.mpr h0
    set K := (⌊(e - start) / I⌋).toNat with hK
    have hKZ : (K : ℤ) = ⌊(e - start) / I⌋ := Int.toNat_of_nonneg hfl0
    rw [levelsLoop, if_pos hse]
    rcases Nat.eq_zero_or_pos K with hK0 | hKpos
    · have hflz : ⌊(e - start) / I⌋ = 0 := by omega
      have hlt1 : (e - start) / I < 1 := by
        have := Int.lt_floor_add_one ((e - start) / I)
        rw [hflz] at this; simpa using this
      have hstep : ¬ (start + I ≤ e) := by
        have := (div_lt_one hI).mp hlt1
        intro hc; linarith
      rw [levelsLoop_nil e I (start + I) hstep]
      simp [hK0, List.range_succ]
    · have h1le : (1 : ℤ) ≤ ⌊(e - start) / I⌋ := by omega
      have h1leq : (1 : ℚ) ≤ (e - start) / I := by
        exact_mod_cast Int.le_floor.mp h1le
      have hstep : start + I ≤ e := by
        have := (one_le_div hI).mp h1leq
        linarith
      have hshift : (e - (start + I)) / I = (e - start) / I - 1 := by
        field_simp
        ring
      have hfloorshift : ⌊(e - (start + I)) / I⌋ = ⌊(e - start) / I⌋ - 1 := by
        rw [hshift, Int.floor_sub_one]
      have hKshift : (⌊(e - (start + I)) / I⌋).toNat = K - 1 := by omega
      have hrec := ih (start + I) e hstep (by omega)
      rw [hrec, hKshift]
      have hKsucc : K - 1 + 1 = K := by omega
      rw [hKsucc]
      rw [List.range_succ_eq_map]
      rw [List.map_cons, List.map_map]
      congr 1
      · norm_num
      · apply List.map_congr_left
        intro k _
        simp only [Function.comp_apply]
        push_cast
        ring

/-- Helper: determine_action always leaves a recorded analysis whose trend and
momentum agree with the analysis just processed. -/
theorem determine_action_records (cfg : Config) (s : MPState) (r : Analysis) :
    ∃ p, ((MarketPositionManager.determine_action cfg s r).1).last_analysis_result = some p ∧
      p.trend = r.trend ∧ p.momentum = r.momentum := by
  unfold MarketPositionManager.determine_action
  cases hl : s.last_analysis_result with
  | none =>
    refine ⟨r, ?_, rfl, rfl⟩
    simp only [hl]
    simp [apply_ite (fun x : MPState × Option MpAction => x.1.last_analysis_result)]
  | some prev =>
    by_cases hd : prev.trend = r.trend ∧ prev.momentum = r.momentum
    · refine ⟨prev, ?_, hd.1, hd.2⟩
      simp [hl, hd]
    · refine ⟨r, ?_, rfl, rfl⟩
      simp only [hl]
      rw [decide_eq_false hd]
      simp [apply_ite (fun x : MPState × Option MpAction => x.1.last_analysis_result)]

/-- Helper: an analysis matching the recorded one is debounced to no action. -/
theorem determine_action_debounced (cfg : Config) (s : MPState) (r : Analysis)
    (p : Analysis) (hl : s.last_analysis_result = some p)
    (ht : p.trend = r.trend) (hm : p.momentum = r.momentum) :
    (MarketPositionManager.determine_action cfg s r).2 = none := by
  unfold MarketPositionManager.determine_action
  simp [hl, ht, hm]

/-- Helper: closing a market position never changes the reopen counter. -/
theorem close_market_position_reopens (s : MPState) (pi : Option PosInfo) (ok : Bool) :
    ((MarketPositionManager.close_market_position s pi ok).1).market_position_reopens =
      s.market_position_reopens := by
  cases hmp : s.market_position with
  | none => simp [MarketPositionManager.close_market_position, hmp]
  | some v =>
    cases pi with
    | none => simp [MarketPositionManager.close_market_position, hmp]
    | some p =>
      by_cases hz : p.positionAmt = 0
      · simp [MarketPositionManager.close_market_position, hmp, hz]
      · cases ok <;> simp [MarketPositionManager.close_market_position, hmp, hz]

/-- Helper: opening a market position never changes the reopen counter. -/
theorem open_market_position_reopens (cfg : Config) (s : MPState) (side : String)
    (price : ℚ) (ok : Bool) :
    ((MarketPositionManager.open_market_position cfg s side price ok).1).market_position_reopens =
      s.market_position_reopens := by
  unfold MarketPositionManager.open_market_position
  split_ifs <;> rfl

/-- Helper: a close whose gateway close order succeeds leaves no tracked
market position. -/
theorem close_market_position_clears (s : MPState) (pi : Option PosInfo)
    (hk : Bool) (hok : hk = true) :
    ((MarketPositionManager.close_market_position s pi hk).1).market_position = none := by
  subst hok
  cases hmp : s.market_position with
  | none => simp [MarketPositionManager.close_market_position, hmp]
  | some v =>
    cases pi with
    | none => simp [MarketPositionManager.close_market_position, hmp]
    | some p =>
      by_cases hz : p.positionAmt = 0
      · simp [MarketPositionManager.close_market_position, hmp, hz]
      · simp [MarketPositionManager.close_market_position, hmp, hz]

/-- Helper: determine_action never increases the reopen counter (it keeps it
or resets it to zero). -/
theorem determine_action_reopens_le (cfg : Config) (s : MPState) (r : Analysis) :
    ((MarketPositionManager.determine_action cfg s r).1).market_position_reopens ≤
      s.market_position_reopens := by
  unfold MarketPositionManager.determine_action
  split_ifs <;>
    (cases hsig : s.last_signal with
     | none =>
       simp [hsig, apply_ite (fun x : MPState × Option MpAction => x.1.market_position_reopens)]
     | some ls =>
       by_cases hch : ls = mkSignal r.trend r.momentum <;>
         simp [hsig, hch,
           apply_ite (fun x : MPState × Option MpAction => x.1.market_position_reopens)])

/-! ## Claim theorems -/

/-- Claim C1: for a positive center price and a configuration with positive
width and positive division count, Grid.generate replaces the levels with the
sequence of points center minus width/2 plus k times the interval, for k from
0 to the floor of width over interval, strictly increasing, with floor+1
elements. -/
theorem c1_grid_generate (cfg : Config) (C : ℚ) (_hC : 0 < C)
    (hW : 0 < cfg.endPrice - cfg.startPrice) (hD : 0 < cfg.gridSize) :
    (Grid.generate cfg C).grid_levels =
      (List.range ((⌊(cfg.endPrice - cfg.startPrice) /
          ((cfg.endPrice - cfg.startPrice) / cfg.gridSize)⌋).toNat + 1)).map
        (fun k : ℕ => C - (cfg.endPrice - cfg.startPrice) / 2 +
          (k : ℚ) * ((cfg.endPrice - cfg.startPrice) / cfg.gridSize)) ∧
    (Grid.generate cfg C).grid_levels.Pairwise (· < ·) ∧
    (Grid.generate cfg C).grid_levels.length =
      (⌊(cfg.endPrice - cfg.startPrice) /
          ((cfg.endPrice - cfg.startPrice) / cfg.gridSize)⌋).toNat + 1 := by
  set W := cfg.endPrice - cfg.startPrice with hWdef
  set I := W / cfg.gridSize with hIdef
  have hI : 0 < I := div_pos hW hD
  have hdiff : C + W / 2 - (C - W / 2) = W := by ring
  have hse : C - W / 2 ≤ C + W / 2 := by linarith
  have hmain : (Grid.generate cfg C).grid_levels =
      (List.range ((⌊W / I⌋).toNat + 1)).map (fun k : ℕ => C - W / 2 + (k : ℚ) * I) := by
    show levelsLoop (C + W / 2) I (C - W / 2) ((⌊W / I⌋).toNat + 2) = _
    rw [levelsLoop_closed I hI ((⌊W / I⌋).toNat + 2) (C - W / 2) (C + W / 2) hse
      (by rw [hdiff])]
    rw [hdiff]
  refine ⟨hmain, ?_, ?_⟩
  · rw [hmain]
    refine List.Pairwise.map _ ?_ (List.pairwise_lt_range _)
    intro a b hab
    have : (a : ℚ) < b := by exact_mod_cast hab
    have := mul_lt_mul_of_pos_right this hI
    linarith
  · rw [hmain]; simp

/-- Witness for C1: at center 1000 with range 900 to 1100 and 4 divisions the
generated levels are 900, 950, 1000, 1050, 1100. -/
theorem c1_grid_generate_witness :
    (0 : ℚ) < 1000 ∧ (0 : ℚ) < c1Cfg.endPrice - c1Cfg.startPrice ∧
    (0 : ℚ) < c1Cfg.gridSize ∧
    (Grid.generate c1Cfg 1000).grid_levels = [900, 950, 1000, 1050, 1100] ∧
    (Grid.generate c1Cfg 1000).grid_levels.Pairwise (· < ·) ∧
    (Grid.generate c1Cfg 1000).grid_levels.length = 5 := by
  have hW : (0 : ℚ) < c1Cfg.endPrice - c1Cfg.startPrice := by norm_num [c1Cfg]
  have hD : (0 : ℚ) < c1Cfg.gridSize := by norm_num [c1Cfg]
  have h := c1_grid_generate c1Cfg 1000 (by norm_num) hW hD
  have hfl : (⌊(c1Cfg.endPrice - c1Cfg.startPrice) /
      ((c1Cfg.endPrice - c1Cfg.startPrice) / c1Cfg.gridSize)⌋).toNat + 1 = 5 := by
    norm_num [c1Cfg]
    rfl
  refine ⟨by norm_num, hW, hD, ?_, h.2.1, by rw [h.2.2, hfl]⟩
  rw [h.1, hfl]
  simp [List.range_succ, c1Cfg]
  norm_num

/-- Claim C2 counterexample: with take-profit mode GRID_RANGE and a take-profit
percent set, check_exit_conditions still returns the take-profit reason, so
the take-profit percentage check is not gated on the configured tpMode. -/
theorem c2_counterexample :
    c2Cfg.tpMode = TpMode.GRID_RANGE ∧ qTruthy c2Cfg.takeProfitPercent = true ∧
    RiskManager.check_exit_conditions c2Cfg GridState.init 1100 0 (some 1000) =
      some "Take Profit Triggered" := by
  have hmax : RiskManager.check_max_consecutive_positions c2Cfg 0 = false := by decide
  have htpq : qTruthy c2Cfg.takeProfitPercent = true := by
    show decide ¬((10:ℚ) = 0) = true
    norm_num
  refine ⟨rfl, htpq, ?_⟩
  unfold RiskManager.check_exit_conditions
  rw [hmax]
  have htp : RiskManager.check_take_profit c2Cfg 1100 1000 = true := by
    unfold RiskManager.check_take_profit
    show decide ((1100:ℚ) ≥ 1000 * (1 + (some (10:ℚ)).getD 0 / 100)) = true
    norm_num
  have h1000 : qTruthy (some (1000:ℚ)) = true := by
    show decide ¬((1000:ℚ) = 0) = true
    norm_num
  have hslq : qTruthy c2Cfg.stopLossPercent = false := rfl
  simp [hslq, htpq, htp, h1000]

/-- Claim C2 amended: the take-profit percentage check in check_exit_conditions
is not gated on tpMode; also under tpMode GRID_RANGE, whenever a take-profit
percent is configured, no stop loss is configured, the entry price is known
and nonzero, and the max-consecutive rule does not trip, the evaluator
returns the take-profit reason exactly when the percentage check trips. -/
theorem c2_tp_ungated (cfg : Config) (grid : GridState) (price : ℚ)
    (counter : ℕ) (entry : ℚ)
    (_htpm : cfg.tpMode = TpMode.GRID_RANGE)
    (hmax : RiskManager.check_max_consecutive_positions cfg counter = false)
    (hslq : qTruthy cfg.stopLossPercent = false)
    (htpq : qTruthy cfg.takeProfitPercent = true)
    (hent : entry ≠ 0) :
    (RiskManager.check_exit_conditions cfg grid price counter (some entry) =
        some "Take Profit Triggered" ↔
      RiskManager.check_take_profit cfg price entry = true) := by
  unfold RiskManager.check_exit_conditions
  rw [hmax]
  have hq : qTruthy (some entry) = true := by simp [qTruthy, hent]
  by_cases htp : RiskManager.check_take_profit cfg price entry = true
  · simp [hslq, hq, htpq, htp]
  · rw [Bool.not_eq_true] at htp
    simp only [hslq, hq, htpq, htp, Bool.false_and, Bool.and_false, Bool.and_true,
      Bool.true_and, Bool.false_eq_true, if_false]
    constructor
    · intro h
      split at h <;> simp_all
    · intro h
      simp at h

/-- Witness for the amended C2: at the GRID_RANGE configuration, price 1200
against entry 1000 with a 10 percent take profit yields the take-profit
reason. -/
theorem c2_tp_ungated_witness :
    RiskManager.check_exit_conditions c2Cfg GridState.init 1200 0 (some 1000) =
      some "Take Profit Triggered" := by
  have h := c2_tp_ungated c2Cfg GridState.init 1200 0 1000 rfl (by decide) rfl
    (by show decide ¬((10:ℚ) = 0) = true; norm_num) (by norm_num)
  apply h.mpr
  unfold RiskManager.check_take_profit
  show decide ((1200:ℚ) ≥ 1000 * (1 + (some (10:ℚ)).getD 0 / 100)) = true
  norm_num

/-- Claim C3: check_exit_conditions evaluates its conditions in strict
priority order; whenever the max-consecutive-positions condition holds with a
finite parsed limit, the returned reason is the max-consecutive reason even
when the stop-loss condition holds as well. -/
theorem c3_exit_priority (cfg : Config) (grid : GridState) (price : ℚ)
    (counter : ℕ) (entry : Option ℚ) (m : ℤ)
    (hunlim : pyLower cfg.maxConsecutiveGridPositions ≠ "unlimited")
    (hparse : pyInt? cfg.maxConsecutiveGridPositions = some m)
    (hcount : (counter : ℤ) ≥ m)
    (_hslcfg : qTruthy cfg.stopLossPercent = true)
    (_hentry : qTruthy entry = true)
    (_hsl : RiskManager.check_stop_loss cfg price (entry.getD 0) = true) :
    RiskManager.check_exit_conditions cfg grid price counter entry =
      some "Max Consecutive Positions Triggered" := by
  have hmax : RiskManager.check_max_consecutive_positions cfg counter = true := by
    unfold RiskManager.check_max_consecutive_positions
    rw [if_neg hunlim, hparse]
    simpa using hcount
  unfold RiskManager.check_exit_conditions
  rw [hmax]
  simp

/-- Witness for C3: at limit 3 with counter 3, stop loss 5 percent, entry
1000 and price 940 both conditions hold and the max-consecutive reason is
returned. -/
theorem c3_exit_priority_witness :
    RiskManager.check_exit_conditions c4Cfg GridState.init 940 3 (some 1000) =
      some "Max Consecutive Positions Triggered" := by
  apply c3_exit_priority c4Cfg GridState.init 940 3 (some 1000) 3
  · decide
  · decide
  · decide
  · show decide ¬((5:ℚ) = 0) = true
    norm_num
  · show decide ¬((1000:ℚ) = 0) = true
    norm_num
  · unfold RiskManager.check_stop_loss
    show decide ((940:ℚ) ≤ 1000 * (1 - (some (5:ℚ)).getD 0 / 100)) = true
    norm_num

/-- Claim C4: with a stop-loss percent configured, the stop-loss check trips
in long mode exactly when price is at most entry times one minus the percent,
and in short mode exactly when price is at least entry times one plus the
percent; concretely, in long mode with stop loss 5 percent and entry 1000 the
stop loss trips exactly at prices at most 950, and with take profit 10
percent the take profit trips exactly at prices at least 1100. -/
theorem c4_sl_tp_thresholds :
    (∀ cfg price entry sl, cfg.mode = Mode.long → cfg.stopLossPercent = some sl →
      (RiskManager.check_stop_loss cfg price entry = true ↔
        price ≤ entry * (1 - sl / 100))) ∧
    (∀ cfg price entry sl, cfg.mode = Mode.short → cfg.stopLossPercent = some sl →
      (RiskManager.check_stop_loss cfg price entry = true ↔
        price ≥ entry * (1 + sl / 100))) ∧
    (∀ price : ℚ, RiskManager.check_stop_loss c4Cfg price 1000 = true ↔ price ≤ 950) ∧
    (∀ price : ℚ, RiskManager.check_take_profit c4Cfg price 1000 = true ↔ price ≥ 1100) := by
  have hlong : ∀ cfg price entry sl, cfg.mode = Mode.long → cfg.stopLossPercent = some sl →
      (RiskManager.check_stop_loss cfg price entry = true ↔
        price ≤ entry * (1 - sl / 100)) := by
    intro cfg price entry sl hm hsl
    unfold RiskManager.check_stop_loss
    rw [hm, hsl]
    simp
  refine ⟨hlong, ?_, ?_, ?_⟩
  · intro cfg price entry sl hm hsl
    unfold RiskManager.check_stop_loss
    rw [hm, hsl]
    simp
  · intro price
    rw [hlong c4Cfg price 1000 5 rfl rfl]
    norm_num
  · intro price
    unfold RiskManager.check_take_profit
    show (decide (price ≥ 1000 * (1 + (some (10:ℚ)).getD 0 / 100)) = true) ↔ _
    norm_num

/-- Witness for C4: the long-mode threshold instance at entry 1000 with 5
percent, and concrete trips at prices 940 and 1105. -/
theorem c4_sl_tp_thresholds_witness :
    (RiskManager.check_stop_loss c4Cfg 940 1000 = true ↔ (940:ℚ) ≤ 1000 * (1 - 5 / 100)) ∧
    RiskManager.check_stop_loss c4Cfg 940 1000 = true ∧
    RiskManager.check_take_profit c4Cfg 1105 1000 = true := by
  refine ⟨c4_sl_tp_thresholds.1 c4Cfg 940 1000 5 rfl rfl, ?_, ?_⟩
  · exact (c4_sl_tp_thresholds.2.2.1 940).mpr (by norm_num)
  · exact (c4_sl_tp_thresholds.2.2.2 1105).mpr (by norm_num)

/-- Claim C5: with reopening enabled, drain attempts an order for every entry
in queue order, keeps exactly the entries whose placement failed, is a no-op
on the empty queue, and for one entry a failure keeps the queue at size one
while a success empties it. -/
theorem c5_reopen_queue (cfg : Config) (henable : cfg.enablePositionReopen = true) :
    (∀ responses, PositionReopenManager.process_reopen_queue cfg [] responses = ([], [])) ∧
    (∀ queue responses,
      (PositionReopenManager.process_reopen_queue cfg queue responses).1 = queue) ∧
    (∀ queue responses, responses.length = queue.length →
      (PositionReopenManager.process_reopen_queue cfg queue responses).2 =
        ((queue.zip responses).filter (fun p => !p.2)).map Prod.fst) ∧
    (∀ e : ReopenEntry,
      (PositionReopenManager.process_reopen_queue cfg [e] [false]).2 = [e] ∧
      (PositionReopenManager.process_reopen_queue cfg [e] [true]).2 = []) := by
  have hatt : ∀ queue responses, (PositionReopenManager.drainAux queue responses).1 = queue := by
    intro queue
    induction queue with
    | nil => intro responses; rfl
    | cons e es ih =>
      intro responses
      simp [PositionReopenManager.drainAux, ih]
  have hkeep : ∀ (queue : List ReopenEntry) (responses : List Bool),
      responses.length = queue.length →
      (PositionReopenManager.drainAux queue responses).2 =
        ((queue.zip responses).filter (fun p => !p.2)).map Prod.fst := by
    intro queue
    induction queue with
    | nil => intro responses _; rfl
    | cons e es ih =>
      intro responses hlen
      match responses with
      | [] => simp at hlen
      | r :: rs =>
        simp only [List.length_cons, Nat.succ.injEq] at hlen
        cases r with
        | false =>
          simp [PositionReopenManager.drainAux, ih rs hlen, List.zip_cons_cons]
        | true =>
          simp [PositionReopenManager.drainAux, ih rs hlen, List.zip_cons_cons]
  refine ⟨?_, ?_, ?_, ?_⟩
  · intro responses
    unfold PositionReopenManager.process_reopen_queue
    rw [if_pos henable]
    rfl
  · intro queue responses
    unfold PositionReopenManager.process_reopen_queue
    rw [if_pos henable]
    exact hatt queue responses
  · intro queue responses hlen
    unfold PositionReopenManager.process_reopen_queue
    rw [if_pos henable]
    exact hkeep queue responses hlen
  · intro e
    constructor
    · unfold PositionReopenManager.process_reopen_queue
      rw [if_pos henable]
      rfl
    · unfold PositionReopenManager.process_reopen_queue
      rw [if_pos henable]
      rfl

/-- Witness for C5: the scenario entry SELL 1 at level 1000 in the SHORT slot
stays queued after a failed drain and leaves after a successful one. -/
theorem c5_reopen_queue_witness :
    c4Cfg.enablePositionReopen = true ∧
    (PositionReopenManager.process_reopen_queue c4Cfg [c5Entry] [false]).2 = [c5Entry] ∧
    (PositionReopenManager.process_reopen_queue c4Cfg [c5Entry] [true]).2 = [] := by
  refine ⟨rfl, ((c5_reopen_queue c4Cfg rfl).2.2.2 c5Entry).1,
    ((c5_reopen_queue c4Cfg rfl).2.2.2 c5Entry).2⟩

/-- Claim C6: two consecutive analyses with identical trend and momentum
classifications make the second determine_action call return no action. -/
theorem c6_debounce (cfg : Config) (s : MPState) (r1 r2 : Analysis)
    (ht : r1.trend = r2.trend) (hm : r1.momentum = r2.momentum) :
    (MarketPositionManager.determine_action cfg
      (MarketPositionManager.determine_action cfg s r1).1 r2).2 = none := by
  obtain ⟨p, hl, hpt, hpm⟩ := determine_action_records cfg s r1
  exact determine_action_debounced cfg _ r2 p hl (hpt.trans ht) (hpm.trans hm)

/-- Witness for C6: processing uptrend and overbought twice from the initial
state yields no action on the second call. -/
theorem c6_debounce_witness :
    (MarketPositionManager.determine_action c4Cfg
      (MarketPositionManager.determine_action c4Cfg MPState.init anUp).1 anUp).2 = none :=
  c6_debounce c4Cfg MPState.init anUp anUp rfl rfl

/-- Claim C7: with a finite parsed reopen budget already reached, a TP/SL
trigger handled by handle_market_position_tp_sl closes the position without
reopening it and without touching the counter; conversely a reopen happens
only when the budget check passes and the recorded momentum is not NEUTRAL,
and every reopen increments the counter by one. -/
theorem c7_reopen_budget :
    (∀ (cfg : Config) (s : MPState) (trig : String) (price : ℚ) (o : HandleOracle) (N : ℤ),
      pyLower cfg.maxMarketPositionReopens ≠ "unlimited" →
      pyInt? cfg.maxMarketPositionReopens = some N →
      (s.market_position_reopens : ℤ) ≥ N →
      o.closeOk = true →
      (MarketPositionManager.handle_market_position_tp_sl cfg s trig price o).1.market_position
          = none ∧
      (MarketPositionManager.handle_market_position_tp_sl cfg s trig price o).2 = false ∧
      (MarketPositionManager.handle_market_position_tp_sl cfg s trig price
          o).1.market_position_reopens = s.market_position_reopens) ∧
    (∀ (cfg : Config) (s : MPState) (trig : String) (price : ℚ) (o : HandleOracle),
      (MarketPositionManager.handle_market_position_tp_sl cfg s trig price o).2 = true →
      MarketPositionManager.can_reopen_market_position cfg s = true ∧
      (∀ r, s.last_analysis_result = some r → r.momentum ≠ some "NEUTRAL") ∧
      (MarketPositionManager.handle_market_position_tp_sl cfg s trig price
          o).1.market_position_reopens = s.market_position_reopens + 1) := by
  constructor
  · intro cfg s trig price o N hunlim hparse hge hok
    have hcan : MarketPositionManager.can_reopen_market_position cfg s = false := by
      unfold MarketPositionManager.can_reopen_market_position
      rw [if_neg hunlim, hparse]
      simpa using hge
    cases hmp : s.market_position with
    | none =>
      refine ⟨?_, ?_, ?_⟩ <;>
        simp [MarketPositionManager.handle_market_position_tp_sl, hmp]
    | some side =>
      refine ⟨?_, ?_, ?_⟩ <;>
        simp [MarketPositionManager.handle_market_position_tp_sl, hmp, hcan,
          close_market_position_clears s o.closePosInfo o.closeOk hok,
          close_market_position_reopens]
  · intro cfg s trig price o hres
    cases hmp : s.market_position with
    | none =>
      simp [MarketPositionManager.handle_market_position_tp_sl, hmp] at hres
    | some side =>
      by_cases hcan : MarketPositionManager.can_reopen_market_position cfg s = true
      · by_cases hneu : (match s.last_analysis_result with
            | some r => decide (r.momentum = some "NEUTRAL")
            | none => false) = true
        · simp [MarketPositionManager.handle_market_position_tp_sl, hmp, hcan, hneu] at hres
        · rw [Bool.not_eq_true] at hneu
          refine ⟨hcan, ?_, ?_⟩
          · intro r hr hrm
            simp only [hr] at hneu
            rw [hrm] at hneu
            simp at hneu
          · cases hpi : o.posInfo with
            | none =>
              simp [MarketPositionManager.handle_market_position_tp_sl, hmp, hcan, hneu,
                hpi] at hres
            | some pi =>
              by_cases hz : pi.positionAmt = 0
              · simp [MarketPositionManager.handle_market_position_tp_sl, hmp, hcan, hneu,
                  hpi, hz] at hres
              · simp [MarketPositionManager.handle_market_position_tp_sl, hmp, hcan, hneu,
                  hpi, hz, open_market_position_reopens, close_market_position_reopens]
      · rw [Bool.not_eq_true] at hcan
        simp [MarketPositionManager.handle_market_position_tp_sl, hmp, hcan] at hres

/-- Witness for C7: with budget zero the handler closes without reopening,
and with an unlimited budget a trigger against an open long reopens and
bumps the counter from 0 to 1. -/
theorem c7_reopen_budget_witness :
    ((MarketPositionManager.handle_market_position_tp_sl c7CfgZero mpOpen "STOP_LOSS" 990
        hOracle).1.market_position = none ∧
      (MarketPositionManager.handle_market_position_tp_sl c7CfgZero mpOpen "STOP_LOSS" 990
        hOracle).2 = false) ∧
    (MarketPositionManager.handle_market_position_tp_sl c4Cfg mpOpen "STOP_LOSS" 990
        hOracle).1.market_position_reopens = mpOpen.market_position_reopens + 1 := by
  constructor
  · have h := c7_reopen_budget.1 c7CfgZero mpOpen "STOP_LOSS" 990 hOracle 0
      (by decide) (by decide) (by decide) rfl
    exact ⟨h.1, h.2.1⟩
  · exact (c7_reopen_budget.2 c4Cfg mpOpen "STOP_LOSS" 990 hOracle (by decide)).2.2

/-- Claim C8: when no shutdown marker is present and the gateway returns no
market price, Bot.run skips the tick and leaves the whole orchestrator state
unchanged. -/
theorem c8_no_price_skips_tick (cfg : Config) (o : TickOracle) (s : BotState)
    (hsd : o.shutdown = false) (hp : o.price = none) :
    Bot.run cfg o s = some s := by
  unfold Bot.run
  rw [hsd, hp]
  rfl

/-- Witness for C8: a priceless tick from the initial state returns the
initial state. -/
theorem c8_no_price_skips_tick_witness :
    Bot.run c4Cfg tickO BotState.init = some BotState.init :=
  c8_no_price_skips_tick c4Cfg tickO BotState.init rfl rfl

/-- Claim C9: with a finite parsed maximum N, the bound that the reopen
counter is at most N is preserved by every operation of the market-position
manager: determine_action, process_analysis, handle_market_position_tp_sl,
open_market_position and close_market_position. -/
theorem c9_reopen_counter_invariant (cfg : Config) (N : ℤ)
    (hunlim : pyLower cfg.maxMarketPositionReopens ≠ "unlimited")
    (hparse : pyInt? cfg.maxMarketPositionReopens = some N) :
    (∀ (s : MPState) (r : Analysis), (s.market_position_reopens : ℤ) ≤ N →
      (((MarketPositionManager.determine_action cfg s r).1).market_position_reopens : ℤ) ≤ N) ∧
    (∀ (s : MPState) (price : ℚ) (o : AnalysisOracle), (s.market_position_reopens : ℤ) ≤ N →
      (((MarketPositionManager.process_analysis cfg s price o).1).market_position_reopens : ℤ)
        ≤ N) ∧
    (∀ (s : MPState) (trig : String) (price : ℚ) (o : HandleOracle),
      (s.market_position_reopens : ℤ) ≤ N →
      (((MarketPositionManager.handle_market_position_tp_sl cfg s trig price
          o).1).market_position_reopens : ℤ) ≤ N) ∧
    (∀ (s : MPState) (side : String) (price : ℚ) (ok : Bool),
      (s.market_position_reopens : ℤ) ≤ N →
      (((MarketPositionManager.open_market_position cfg s side price
          ok).1).market_position_reopens : ℤ) ≤ N) ∧
    (∀ (s : MPState) (pi : Option PosInfo) (ok : Bool),
      (s.market_position_reopens : ℤ) ≤ N →
      (((MarketPositionManager.close_market_position s pi
          ok).1).market_position_reopens : ℤ) ≤ N) := by
  have hdet : ∀ (s : MPState) (r : Analysis), (s.market_position_reopens : ℤ) ≤ N →
      (((MarketPositionManager.determine_action cfg s r).1).market_position_reopens : ℤ) ≤ N := by
    intro s r hle
    calc (((MarketPositionManager.determine_action cfg s r).1).market_position_reopens : ℤ)
        ≤ (s.market_position_reopens : ℤ) := by
          exact_mod_cast determine_action_reopens_le cfg s r
      _ ≤ N := hle
  refine ⟨hdet, ?_, ?_, ?_, ?_⟩
  · intro s price o hle
    have h0N : (0 : ℤ) ≤ N := le_trans (Int.natCast_nonneg _) hle
    unfold MarketPositionManager.process_analysis
    cases hen : cfg.enableMarketPositionLogic with
    | false => simpa [hen] using hle
    | true =>
      cases hrun : MarketPositionManager.should_run_analysis cfg s o.now with
      | false => simpa [hen, hrun] using hle
      | true =>
        cases hres : o.analysisResult with
        | none => simpa [hen, hrun, hres] using hle
        | some r =>
          have hle0 : (((MarketPositionManager.determine_action cfg
              { s with last_analysis_time := some o.now } r).1).market_position_reopens : ℤ)
                ≤ N :=
            hdet { s with last_analysis_time := some o.now } r hle
          rcases hda : MarketPositionManager.determine_action cfg
              { s with last_analysis_time := some o.now } r with ⟨s1, act⟩
          rw [hda] at hle0
          simp only [hen, hrun, hres, hda, Bool.not_true, Bool.false_eq_true, if_false]
          cases act with
          | none => exact hle0
          | some a =>
            cases a with
            | OPEN_LONG =>
              simp only [open_market_position_reopens]
              simpa using h0N
            | OPEN_SHORT =>
              simp only [open_market_position_reopens]
              simpa using h0N
            | CLOSE => simpa using h0N
  · intro s trig price o hle
    cases hmp : s.market_position with
    | none => simpa [MarketPositionManager.handle_market_position_tp_sl, hmp] using hle
    | some side =>
      by_cases hcan : MarketPositionManager.can_reopen_market_position cfg s = true
      · have hlt : (s.market_position_reopens : ℤ) < N := by
          unfold MarketPositionManager.can_reopen_market_position at hcan
          rw [if_neg hunlim, hparse] at hcan
          simpa using hcan
        by_cases hneu : (match s.last_analysis_result with
            | some r => decide (r.momentum = some "NEUTRAL")
            | none => false) = true
        · simp only [MarketPositionManager.handle_market_position_tp_sl, hmp, hcan, hneu]
          simpa [close_market_position_reopens] using hle
        · rw [Bool.not_eq_true] at hneu
          cases hpi : o.posInfo with
          | none =>
            simpa [MarketPositionManager.handle_market_position_tp_sl, hmp, hcan, hneu, hpi]
              using hle
          | some pi =>
            by_cases hz : pi.positionAmt = 0
            · simpa [MarketPositionManager.handle_market_position_tp_sl, hmp, hcan, hneu,
                hpi, hz] using hle
            · simp only [MarketPositionManager.handle_market_position_tp_sl, hmp, hcan, hneu,
                hpi, hz, Bool.not_true, Bool.false_eq_true, if_false, if_neg hz,
                open_market_position_reopens, close_market_position_reopens]
              push_cast
              omega
      · rw [Bool.not_eq_true] at hcan
        simpa [MarketPositionManager.handle_market_position_tp_sl, hmp, hcan,
          close_market_position_reopens] using hle
  · intro s side price ok hle
    simpa [open_market_position_reopens] using hle
  · intro s pi ok hle
    simpa [close_market_position_reopens] using hle

/-- Witness for C9: with maximum 2 and counter 1, determine_action keeps the
counter within the bound. -/
theorem c9_reopen_counter_invariant_witness :
    pyLower c9Cfg.maxMarketPositionReopens ≠ "unlimited" ∧
    pyInt? c9Cfg.maxMarketPositionReopens = some 2 ∧
    ((MarketPositionManager.determine_action c9Cfg mpOne
      anUp).1.market_position_reopens : ℤ) ≤ 2 := by
  refine ⟨by decide, by decide, ?_⟩
  exact (c9_reopen_counter_invariant c9Cfg 2 (by decide) (by decide)).1 mpOne anUp (by decide)

/-- Claim C10: a limit string that neither parses as an integer nor equals
unlimited in any letter case is silently treated as absent:
check_exit_conditions never returns the max-consecutive-positions reason and
can_reopen_market_position always allows reopening. -/
theorem c10_unparsable_limits (v : String)
    (hparse : pyInt? v = none) (hunlim : pyLower v ≠ "unlimited") :
    (∀ cfg : Config, ∀ grid price counter entry,
      cfg.maxConsecutiveGridPositions = v →
      RiskManager.check_exit_conditions cfg grid price counter entry ≠
        some "Max Consecutive Positions Triggered") ∧
    (∀ cfg : Config, ∀ s : MPState, cfg.maxMarketPositionReopens = v →
      MarketPositionManager.can_reopen_market_position cfg s = true) := by
  constructor
  · intro cfg grid price counter entry hv
    have hmax : RiskManager.check_max_consecutive_positions cfg counter = false := by
      unfold RiskManager.check_max_consecutive_positions
      rw [hv, if_neg hunlim, hparse]
    unfold RiskManager.check_exit_conditions
    rw [hmax]
    simp only [Bool.false_eq_true, if_false]
    split
    · simp
    · split
      · simp
      · split <;> simp
  · intro cfg s hv
    unfold MarketPositionManager.can_reopen_market_position
    rw [hv, if_neg hunlim, hparse]

/-- Witness for C10: the unparsable limit string abc never yields the
max-consecutive reason and always allows reopening. -/
theorem c10_unparsable_limits_witness :
    pyInt? "abc" = none ∧ pyLower "abc" ≠ "unlimited" ∧
    RiskManager.check_exit_conditions c10Cfg GridState.init 1000 99 none ≠
      some "Max Consecutive Positions Triggered" ∧
    MarketPositionManager.can_reopen_market_position c10Cfg MPState.init = true := by
  have h := c10_unparsable_limits "abc" (by decide) (by decide)
  exact ⟨by decide, by decide, h.1 c10Cfg GridState.init 1000 99 none rfl,
    h.2 c10Cfg MPState.init rfl⟩
